import Mathlib

/-!
Verification of the dataset agent's connection-loss recovery logic
(`ion/agents/data/dataset_agent.py`).

The development shallowly embeds:
* `FactorialRetryCalculator` — the factorial backoff calculator, with wall-clock
  time made an explicit rational parameter of each call;
* `DataSetAgent._handler_lost_connection__autoreconnect` — the reconnect handler,
  as a pure function emitting the trace of side-effecting actions it performs;
* `DataSetAgent._autoreconnect` — the background retry loop, over an explicit
  finite list of outcomes of the fired events;
* `DataSetAgent._restore_resource` — the state-restoration replay, over an
  explicit finite-state-machine collaborator (the generic pyon agent framework
  is not part of this repository; a nominal ladder machine is modelled from the
  spec for concrete runs).

Machine floats of the source are modelled as rationals; the Python ints of the
retry counter as naturals (the counter is only ever reset to 0 or incremented).
-/

namespace DatasetAgent

/-- State of `FactorialRetryCalculator`: the three configuration coefficients
(`_retry_coeff`, `_tolerance_coeff`, `_max_retry_time`), the latched
`_max_retry_index`, the `_last_retry` timestamp and the `_retry_count`. -/
structure FactorialRetryCalculator where
  retry_coeff : ℚ
  tolerance_coeff : ℚ
  max_retry_time : ℚ
  max_retry_index : Option ℕ
  last_retry : Option ℚ
  retry_count : ℕ
  deriving DecidableEq, Repr

namespace FactorialRetryCalculator

/-- `reset_retry_counter`: clear all retry state. -/
def reset_retry_counter (s : FactorialRetryCalculator) : FactorialRetryCalculator :=
  { s with last_retry := none, retry_count := 0 }

/-- `__init__`: the source constructs `ValueError` objects for
`retry_coefficient <= 0`, `retry_tolerance_coefficient <= 1` and
`maximum_retry_time <= 0` but never raises them (the `raise` keyword is
missing), so construction succeeds for every input.  The attributes are set
and `reset_retry_counter` is called. -/
def init (retry_coefficient retry_tolerance_coefficient maximum_retry_time : ℚ) :
    FactorialRetryCalculator :=
  reset_retry_counter
    { retry_coeff := retry_coefficient
      tolerance_coeff := retry_tolerance_coefficient
      max_retry_time := maximum_retry_time
      max_retry_index := none
      -- the two fields below are first assigned inside reset_retry_counter
      last_retry := none
      retry_count := 0 }

/-- The `else` branch of `_calc_sleep_time`: compute
`timeout = _retry_coeff * factorial(retry_index)`; if it meets or exceeds
`_max_retry_time`, record `_max_retry_index = retry_index + 1` and return the
maximum, otherwise return the timeout. -/
def calc_sleep_time_compute (s : FactorialRetryCalculator) (retry_index : ℕ) :
    ℚ × FactorialRetryCalculator :=
  let timeout := s.retry_coeff * (Nat.factorial retry_index : ℚ)
  if s.max_retry_time ≤ timeout then
    (s.max_retry_time, { s with max_retry_index := some (retry_index + 1) })
  else
    (timeout, s)

/-- `_calc_sleep_time`: if `_max_retry_index` is recorded and is at most
`_retry_count`, short-circuit to `_max_retry_time`; otherwise compute the
factorial timeout (possibly latching `_max_retry_index`). -/
def calc_sleep_time (s : FactorialRetryCalculator) (retry_index : ℕ) :
    ℚ × FactorialRetryCalculator :=
  match s.max_retry_index with
  | some m => if m ≤ s.retry_count then (s.max_retry_time, s)
              else calc_sleep_time_compute s retry_index
  | none => calc_sleep_time_compute s retry_index

/-- `_clear_retry_state`: with `retry = max(_retry_count - 1, 0)` (natural
subtraction models the source's `if retry < 0: retry = 0` guard), compute
`time_delta = _calc_sleep_time(retry) * _tolerance_coeff` and reset the
counter when no retry is recorded or the elapsed time exceeds `time_delta`.
The call to `_calc_sleep_time` may itself latch `_max_retry_index`; its
updated state is threaded through. -/
def clear_retry_state (s : FactorialRetryCalculator) (now : ℚ) :
    FactorialRetryCalculator :=
  let retry := s.retry_count - 1
  let p := calc_sleep_time s retry
  let time_delta := p.1 * s.tolerance_coeff
  match p.2.last_retry with
  | none => reset_retry_counter p.2
  | some t => if time_delta < now - t then reset_retry_counter p.2 else p.2

/-- `get_sleep_time`: clear stale state if needed, record `_last_retry = now`,
increment `_retry_count`, and return `_calc_sleep_time(_retry_count - 1)`.
The wall clock is passed explicitly as `now`. -/
def get_sleep_time (s : FactorialRetryCalculator) (now : ℚ) :
    ℚ × FactorialRetryCalculator :=
  let s1 := clear_retry_state s now
  let s2 := { s1 with last_retry := some now, retry_count := s1.retry_count + 1 }
  calc_sleep_time s2 (s2.retry_count - 1)

/-- The reset condition tested inside `_clear_retry_state`: no recorded retry,
or elapsed time beyond the tolerance-scaled expected interval. -/
def reset_triggered (s : FactorialRetryCalculator) (now : ℚ) : Bool :=
  let retry := s.retry_count - 1
  let p := calc_sleep_time s retry
  let time_delta := p.1 * s.tolerance_coeff
  match p.2.last_retry with
  | none => true
  | some t => decide (time_delta < now - t)

/-- A call is free of an *effective* staleness reset when either the reset
condition does not fire, or it fires on an already-fresh calculator (no
recorded retry and a zero count, as on the very first call), in which case
`reset_retry_counter` changes nothing. -/
def no_effective_reset (s : FactorialRetryCalculator) (now : ℚ) : Bool :=
  !(reset_triggered s now) ||
    (decide (s.last_retry = none) && decide (s.retry_count = 0))

end FactorialRetryCalculator

open FactorialRetryCalculator

/-- Run a sequence of `get_sleep_time` calls at the given wall-clock instants,
collecting the returned sleep times and the final calculator state. -/
def episodeRun (s : FactorialRetryCalculator) :
    List ℚ → List ℚ × FactorialRetryCalculator
  | [] => ([], s)
  | t :: ts =>
    let p := get_sleep_time s t
    let q := episodeRun p.2 ts
    (p.1 :: q.1, q.2)

/-- A run of calls in which no call performs an effective staleness reset:
one fault episode. -/
def no_stale_run (s : FactorialRetryCalculator) : List ℚ → Bool
  | [] => true
  | t :: ts =>
    no_effective_reset s t && no_stale_run (get_sleep_time s t).2 ts

/-- The `ResourceAgentState` members referenced by the dataset agent. -/
inductive RAState
  | UNINITIALIZED | INACTIVE | IDLE | COMMAND | STREAMING | STOPPED
  | TEST | CALIBRATE | DIRECT_ACCESS | BUSY | ACTIVE_UNKNOWN | LOST_CONNECTION
  deriving DecidableEq, Repr

/-- The driver command used by the recovery and restoration code. -/
inductive DriverEvent
  | START_AUTOSAMPLE
  deriving DecidableEq, Repr

/-- The `ResourceAgentEvent` members fired by the code under study.
`INIT` models `ResourceAgentEvent.INITIALIZE`. -/
inductive RAEvent
  | INIT
  | GO_ACTIVE
  | RUN
  | PAUSE
  | EXECUTE_RESOURCE (cmd : DriverEvent)
  deriving DecidableEq, Repr

/-- Side-effecting actions performed by the autoreconnect handler, in order:
`self._asp.reset_connection()` and `self._dvr_client.cmd_dvr(...)`. -/
inductive AgentAction
  | resetConnection
  | cmdDvr (cmd : DriverEvent)
  deriving DecidableEq, Repr

/-- `DataSetAgent._handler_lost_connection__autoreconnect`: always reset the
connection id and index first; when the state recorded at fault time is
STREAMING or COMMAND, issue `execute_resource START_AUTOSAMPLE` to the driver
and return the next state the driver reports; otherwise return
`_state_when_lost` itself without a driver command.  The driver's reported
next state is the explicit parameter `dvr_next_state`. -/
def handler_lost_connection_autoreconnect (state_when_lost : RAState)
    (dvr_next_state : Option RAState) : List AgentAction × Option RAState :=
  if state_when_lost = RAState.STREAMING ∨ state_when_lost = RAState.COMMAND then
    ([AgentAction.resetConnection, AgentAction.cmdDvr DriverEvent.START_AUTOSAMPLE],
      dvr_next_state)
  else
    ([AgentAction.resetConnection], some state_when_lost)

/-- One iteration body of `DataSetAgent._autoreconnect` after the sleep:
`try: self._fsm.on_event(AUTORECONNECT) except: pass`.  The parameter is the
outcome of the fired event; the bare `except` swallows every error. -/
def autoreconnect_attempt {ε : Type} (outcome : Except ε Unit) : Except ε Unit :=
  match outcome with
  | Except.ok _ => Except.ok ()
  | Except.error _ => Except.ok ()

/-- The `_autoreconnect` retry loop over an explicit finite list of outcomes
of the successive event-firing attempts, counting completed iterations; an
uncaught error in an iteration would propagate and abort the count. -/
def autoreconnect_loop {ε : Type} : List (Except ε Unit) → Except ε ℕ
  | [] => Except.ok 0
  | o :: rest =>
    match autoreconnect_attempt o with
    | Except.error e => Except.error e
    | Except.ok _ =>
      match autoreconnect_loop rest with
      | Except.error e => Except.error e
      | Except.ok n => Except.ok (n + 1)

/-- The log records one iteration body of `_autoreconnect` emits for the
outcome of the fired event.  The handler at lines 149-150 is a bare
`except: pass`: it contains no logging call, so no record is emitted for
either outcome. -/
def autoreconnect_attempt_logs {ε : Type} (outcome : Except ε Unit) : List ε :=
  match outcome with
  | Except.ok _ => []
  | Except.error _ => []

/-- All log records the `_autoreconnect` loop emits over a finite list of
event-firing outcomes. -/
def autoreconnect_loop_logs {ε : Type} : List (Except ε Unit) → List ε
  | [] => []
  | o :: rest => autoreconnect_attempt_logs o ++ autoreconnect_loop_logs rest

/-- The state-machine collaborator of `_restore_resource`: a current state and
a partial transition function; `step cur e = none` models `on_event` raising. -/
structure Fsm where
  cur : RAState
  step : RAState → RAEvent → Option RAState

/-- Outcome of a restoration run: the `on_event` invocations in order, the
machine's final state, and whether the `try` body completed without an
exception (in which case the source logs the restored-state message). -/
structure RestoreResult where
  events : List RAEvent
  final : RAState
  success : Bool
  deriving DecidableEq, Repr

/-- The primitive statements the `_restore_resource` branches are built from:
fire an event, check the current state (raising on mismatch), or the special
ACTIVE_UNKNOWN acceptance check. -/
inductive RStep
  | ev (e : RAEvent)
  | chk (s : RAState)
  | auCheck
  deriving DecidableEq, Repr

/-- Execute a branch of `_restore_resource` against the machine.  A failed
`on_event` (exception) or a failed state check aborts with `success := false`;
the ACTIVE_UNKNOWN check terminates successfully when the machine landed in
ACTIVE_UNKNOWN, raises unless it is in IDLE, and continues otherwise. -/
def run_steps (m : Fsm) : List RStep → RestoreResult
  | [] => { events := [], final := m.cur, success := true }
  | RStep.ev e :: rest =>
    match m.step m.cur e with
    | some s' =>
      let r := run_steps { m with cur := s' } rest
      { r with events := e :: r.events }
    | none => { events := [e], final := m.cur, success := false }
  | RStep.chk s :: rest =>
    if m.cur = s then run_steps m rest
    else { events := [], final := m.cur, success := false }
  | RStep.auCheck :: rest =>
    if m.cur = RAState.ACTIVE_UNKNOWN then
      { events := [], final := m.cur, success := true }
    else if m.cur = RAState.IDLE then run_steps m rest
    else { events := [], final := m.cur, success := false }

/-- The per-target branches of `_restore_resource`, line for line.  A target
with no handling branch (only `LOST_CONNECTION` can remain after the
substitution) falls through to the final `log.error` branch, which raises
nothing, so it maps to the empty statement list. -/
def restore_steps : RAState → List RStep
  | RAState.UNINITIALIZED => [RStep.chk RAState.UNINITIALIZED]
  | RAState.INACTIVE => [RStep.ev RAEvent.INIT, RStep.chk RAState.INACTIVE]
  | RAState.IDLE =>
    [RStep.ev RAEvent.INIT, RStep.ev RAEvent.GO_ACTIVE, RStep.chk RAState.IDLE]
  | RAState.STREAMING =>
    [RStep.ev RAEvent.INIT, RStep.ev RAEvent.GO_ACTIVE, RStep.ev RAEvent.RUN,
      RStep.ev (RAEvent.EXECUTE_RESOURCE DriverEvent.START_AUTOSAMPLE),
      RStep.chk RAState.STREAMING]
  | RAState.COMMAND =>
    [RStep.ev RAEvent.INIT, RStep.ev RAEvent.GO_ACTIVE, RStep.chk RAState.IDLE,
      RStep.ev RAEvent.RUN, RStep.chk RAState.COMMAND]
  | RAState.STOPPED =>
    [RStep.ev RAEvent.INIT, RStep.ev RAEvent.GO_ACTIVE, RStep.chk RAState.IDLE,
      RStep.ev RAEvent.RUN, RStep.chk RAState.COMMAND,
      RStep.ev RAEvent.PAUSE, RStep.chk RAState.STOPPED]
  | RAState.TEST =>
    [RStep.ev RAEvent.INIT, RStep.ev RAEvent.GO_ACTIVE, RStep.chk RAState.IDLE,
      RStep.ev RAEvent.RUN, RStep.chk RAState.COMMAND]
  | RAState.CALIBRATE =>
    [RStep.ev RAEvent.INIT, RStep.ev RAEvent.GO_ACTIVE, RStep.chk RAState.IDLE,
      RStep.ev RAEvent.RUN, RStep.chk RAState.COMMAND]
  | RAState.DIRECT_ACCESS =>
    [RStep.ev RAEvent.INIT, RStep.ev RAEvent.GO_ACTIVE, RStep.chk RAState.IDLE,
      RStep.ev RAEvent.RUN, RStep.chk RAState.COMMAND]
  | RAState.BUSY =>
    [RStep.ev RAEvent.INIT, RStep.ev RAEvent.GO_ACTIVE, RStep.chk RAState.IDLE,
      RStep.ev RAEvent.RUN, RStep.chk RAState.COMMAND]
  | RAState.ACTIVE_UNKNOWN =>
    [RStep.ev RAEvent.INIT, RStep.ev RAEvent.GO_ACTIVE, RStep.auCheck,
      RStep.ev RAEvent.RUN, RStep.chk RAState.COMMAND]
  | RAState.LOST_CONNECTION => []

/-- `DataSetAgent._restore_resource(state, prev_state)`: an unset target is an
immediate return; a LOST_CONNECTION target is replaced by the prior connected
state; the selected branch is then replayed against the machine. -/
def restore_resource (m : Fsm) (state prev_state : Option RAState) :
    RestoreResult :=
  match state with
  | none => { events := [], final := m.cur, success := true }
  | some st =>
    let target := if st = RAState.LOST_CONNECTION then prev_state else some st
    match target with
    | none => { events := [], final := m.cur, success := true }
    | some tgt => run_steps m (restore_steps tgt)

/-- Modelled from the spec: the generic agent state machine (the pyon
framework's `InstrumentAgent` FSM) is not part of this repository; spec
sections 3 (OperatingState) and 4.4 give the nominal restoration ladder
Uninitialized → Inactive → Idle → Command → (Streaming | Stopped), with the
climb into Streaming driven by the resume-sampling resource command. -/
def nominal_step : RAState → RAEvent → Option RAState
  | RAState.UNINITIALIZED, RAEvent.INIT => some RAState.INACTIVE
  | RAState.INACTIVE, RAEvent.GO_ACTIVE => some RAState.IDLE
  | RAState.IDLE, RAEvent.RUN => some RAState.COMMAND
  | RAState.COMMAND, RAEvent.EXECUTE_RESOURCE DriverEvent.START_AUTOSAMPLE =>
    some RAState.STREAMING
  | RAState.COMMAND, RAEvent.PAUSE => some RAState.STOPPED
  | _, _ => none

/-- The nominal machine freshly started in UNINITIALIZED. -/
def nominalFsm : Fsm := { cur := RAState.UNINITIALIZED, step := nominal_step }

namespace FactorialRetryCalculator

/-- The latch condition at index `j`: the factorial timeout for coefficient
`b` meets or exceeds the cap `mx`. -/
def latchAt (b mx : ℚ) (j : ℕ) : Prop := mx ≤ b * (Nat.factorial j : ℚ)

instance (b mx : ℚ) (j : ℕ) : Decidable (latchAt b mx j) := by
  unfold latchAt; infer_instance

/-- The sleep value the calculator produces at position `k` of a fresh,
reset-free episode. -/
def freshVal (b mx : ℚ) (k : ℕ) : ℚ :=
  if latchAt b mx k then mx else b * (Nat.factorial k : ℚ)

/-- Invariant holding after `k` reset-free calls of an episode started from a
freshly constructed calculator with coefficients `b`, `tol`, `mx`. -/
structure EpisodeInv (b tol mx : ℚ) (k : ℕ) (s : FactorialRetryCalculator) :
    Prop where
  hcoeff : s.retry_coeff = b
  htol : s.tolerance_coeff = tol
  hmax : s.max_retry_time = mx
  hcount : s.retry_count = k
  hlatch : ∀ m, s.max_retry_index = some m → latchAt b mx (m - 1) ∧ m ≤ k
  hfree : s.max_retry_index = none → ∀ j, j < k → ¬ latchAt b mx j

lemma latchAt_mono {b mx : ℚ} (hb : 0 ≤ b) {j j' : ℕ} (hjj : j ≤ j')
    (h : latchAt b mx j) : latchAt b mx j' :=
  le_trans h (mul_le_mul_of_nonneg_left
    (by exact_mod_cast Nat.factorial_le hjj) hb)

lemma freshVal_eq_min (b mx : ℚ) (k : ℕ) :
    freshVal b mx k = min (b * (Nat.factorial k : ℚ)) mx := by
  unfold freshVal latchAt
  split
  · exact (min_eq_right (by assumption)).symm
  · exact (min_eq_left (le_of_not_le (by assumption))).symm

lemma calc_frame (s : FactorialRetryCalculator) (i : ℕ) :
    (calc_sleep_time s i).2.retry_coeff = s.retry_coeff ∧
    (calc_sleep_time s i).2.tolerance_coeff = s.tolerance_coeff ∧
    (calc_sleep_time s i).2.max_retry_time = s.max_retry_time ∧
    (calc_sleep_time s i).2.last_retry = s.last_retry ∧
    (calc_sleep_time s i).2.retry_count = s.retry_count := by
  obtain ⟨b, tc, mt, mri, lr, rc⟩ := s
  cases mri <;>
    simp [calc_sleep_time, calc_sleep_time_compute] <;>
    split <;> simp_all <;> split <;> simp_all

lemma calc_latched {s : FactorialRetryCalculator} {m : ℕ} (i : ℕ)
    (hm : s.max_retry_index = some m) (hle : m ≤ s.retry_count) :
    calc_sleep_time s i = (s.max_retry_time, s) := by
  obtain ⟨b, tc, mt, mri, lr, rc⟩ := s
  simp only at hm hle
  subst hm
  simp [calc_sleep_time, hle]

lemma calc_none_latch {s : FactorialRetryCalculator} {i : ℕ}
    (hm : s.max_retry_index = none)
    (hge : s.max_retry_time ≤ s.retry_coeff * (Nat.factorial i : ℚ)) :
    calc_sleep_time s i =
      (s.max_retry_time, { s with max_retry_index := some (i + 1) }) := by
  obtain ⟨b, tc, mt, mri, lr, rc⟩ := s
  simp only at hm hge
  subst hm
  simp [calc_sleep_time, calc_sleep_time_compute, hge]

lemma calc_none_nolatch {s : FactorialRetryCalculator} {i : ℕ}
    (hm : s.max_retry_index = none)
    (hlt : ¬ s.max_retry_time ≤ s.retry_coeff * (Nat.factorial i : ℚ)) :
    calc_sleep_time s i = (s.retry_coeff * (Nat.factorial i : ℚ), s) := by
  obtain ⟨b, tc, mt, mri, lr, rc⟩ := s
  simp only at hm hlt
  subst hm
  simp [calc_sleep_time, calc_sleep_time_compute, hlt]

lemma reset_eq_self {s : FactorialRetryCalculator} (h1 : s.last_retry = none)
    (h2 : s.retry_count = 0) : reset_retry_counter s = s := by
  obtain ⟨b, tc, mt, mri, lr, rc⟩ := s
  simp only at h1 h2
  subst h1; subst h2
  rfl

lemma clear_of_no_effective_reset {s : FactorialRetryCalculator} {now : ℚ}
    (h : no_effective_reset s now = true) :
    clear_retry_state s now = (calc_sleep_time s (s.retry_count - 1)).2 := by
  have hfr := calc_frame s (s.retry_count - 1)
  simp only [no_effective_reset, reset_triggered] at h
  simp only [clear_retry_state]
  rcases hlr : s.last_retry with _ | t
  · rw [hfr.2.2.2.1, hlr] at h ⊢
    simp only [hlr, decide_eq_true_eq, Bool.and_eq_true, Bool.or_eq_true,
      decide_eq_true_eq, Bool.not_eq_true'] at h
    rcases h with h | h
    · simp at h
    · exact reset_eq_self (hfr.2.2.2.1.trans hlr) (hfr.2.2.2.2.trans h.2)
  · rw [hfr.2.2.2.1, hlr] at h ⊢
    simp only [hlr, Bool.or_eq_true, Bool.not_eq_true', decide_eq_false_iff_not,
      Bool.and_eq_true, decide_eq_true_eq] at h
    rcases h with h | h
    · simp [h]
    · simp at h

lemma fresh_step {b tol mx : ℚ} (hb : 0 < b) {k : ℕ}
    {s : FactorialRetryCalculator} {now : ℚ} (hinv : EpisodeInv b tol mx k s)
    (hns : no_effective_reset s now = true) :
    (get_sleep_time s now).1 = freshVal b mx k ∧
      EpisodeInv b tol mx (k + 1) (get_sleep_time s now).2 := by
  obtain ⟨hcoeff, htol, hmax, hcount, hlatch, hfree⟩ := hinv
  rcases hmri : s.max_retry_index with _ | m
  · -- no latch recorded yet
    have hf := hfree hmri
    rcases Nat.eq_zero_or_pos k with hk0 | hkpos
    · -- first call of the episode: the clearing probe also looks at index 0
      have hc0 : s.retry_count - 1 = 0 := by rw [hcount, hk0]
      by_cases hl0 : latchAt b mx 0
      · have hinner : calc_sleep_time s (s.retry_count - 1) =
            (s.max_retry_time, { s with max_retry_index := some 1 }) := by
          rw [hc0]
          exact calc_none_latch hmri (by rw [hmax, hcoeff]; exact hl0)
        have hclear : clear_retry_state s now =
            { s with max_retry_index := some 1 } := by
          rw [clear_of_no_effective_reset hns, hinner]
        have hget : get_sleep_time s now =
            calc_sleep_time
              { s with max_retry_index := some 1, last_retry := some now, retry_count := s.retry_count + 1 }
              (s.retry_count + 1 - 1) := by
          simp only [get_sleep_time]
          rw [hclear]
        have houter : calc_sleep_time
            { s with max_retry_index := some 1, last_retry := some now, retry_count := s.retry_count + 1 }
            (s.retry_count + 1 - 1) =
            (s.max_retry_time,
              { s with max_retry_index := some 1, last_retry := some now, retry_count := s.retry_count + 1 }) :=
          calc_latched _ rfl (by simp)
        rw [hget, houter]
        constructor
        · show s.max_retry_time = freshVal b mx k
          rw [hmax, freshVal, hk0, if_pos hl0]
        · refine ⟨hcoeff, htol, hmax, by simp [hcount], ?_, ?_⟩
          · intro m' h'
            obtain rfl : (1 : ℕ) = m' := by simpa using h'
            exact ⟨by simpa using hl0, by omega⟩
          · intro h'; simp at h'
      · have hinner : calc_sleep_time s (s.retry_count - 1) =
            (s.retry_coeff * (Nat.factorial 0 : ℚ), s) := by
          rw [hc0]
          exact calc_none_nolatch hmri (by rw [hmax, hcoeff]; exact hl0)
        have hclear : clear_retry_state s now = s := by
          rw [clear_of_no_effective_reset hns, hinner]
        have hget : get_sleep_time s now =
            calc_sleep_time
              { s with last_retry := some now, retry_count := s.retry_count + 1 }
              (s.retry_count + 1 - 1) := by
          simp only [get_sleep_time]
          rw [hclear]
        have houter : calc_sleep_time
            { s with last_retry := some now, retry_count := s.retry_count + 1 }
            (s.retry_count + 1 - 1) =
            ((s.retry_coeff * (Nat.factorial (s.retry_count + 1 - 1) : ℚ)),
              { s with last_retry := some now, retry_count := s.retry_count + 1 }) :=
          calc_none_nolatch (by simpa using hmri)
            (by show ¬ s.max_retry_time ≤
                  s.retry_coeff * (Nat.factorial (s.retry_count + 1 - 1) : ℚ)
                rw [hmax, hcoeff]
                simpa [hcount, hk0, latchAt, not_le] using hl0)
        rw [hget, houter]
        constructor
        · show s.retry_coeff * (Nat.factorial (s.retry_count + 1 - 1) : ℚ) =
            freshVal b mx k
          rw [freshVal, if_neg (hk0 ▸ hl0), hcoeff, hcount]
          simp
        · refine ⟨hcoeff, htol, hmax, by simp [hcount], ?_, ?_⟩
          · intro m' h'
            rw [show ({ s with last_retry := some now, retry_count := s.retry_count + 1 } :
                FactorialRetryCalculator).max_retry_index = s.max_retry_index
                from rfl, hmri] at h'
            cases h'
          · intro _ j hj
            have : j = 0 := by omega
            subst this
            exact hl0
    · -- later call: the clearing probe sits strictly below the count
      have hfk1 : ¬ latchAt b mx (k - 1) := hf (k - 1) (by omega)
      have hinner : calc_sleep_time s (s.retry_count - 1) =
          (s.retry_coeff * (Nat.factorial (s.retry_count - 1) : ℚ), s) :=
        calc_none_nolatch hmri
          (by rw [hmax, hcoeff, hcount]; exact hfk1)
      have hclear : clear_retry_state s now = s := by
        rw [clear_of_no_effective_reset hns, hinner]
      have hget : get_sleep_time s now =
          calc_sleep_time
            { s with last_retry := some now, retry_count := s.retry_count + 1 }
            (s.retry_count + 1 - 1) := by
        simp only [get_sleep_time]
        rw [hclear]
      by_cases hlk : latchAt b mx k
      · have houter : calc_sleep_time
            { s with last_retry := some now, retry_count := s.retry_count + 1 }
            (s.retry_count + 1 - 1) =
            (s.max_retry_time,
              { s with max_retry_index := some ((s.retry_count + 1 - 1) + 1), last_retry := some now, retry_count := s.retry_count + 1 }) :=
          calc_none_latch (by simpa using hmri)
            (by show s.max_retry_time ≤
                  s.retry_coeff * (Nat.factorial (s.retry_count + 1 - 1) : ℚ)
                rw [hmax, hcoeff]
                simpa [hcount, latchAt, not_le] using hlk)
        rw [hget, houter]
        constructor
        · show s.max_retry_time = freshVal b mx k
          rw [hmax, freshVal, if_pos hlk]
        · refine ⟨hcoeff, htol, hmax, by simp [hcount], ?_, ?_⟩
          · intro m' h'
            obtain rfl : (s.retry_count + 1 - 1) + 1 = m' := by simpa using h'
            refine ⟨?_, by omega⟩
            simpa [hcount] using hlk
          · intro h'; simp at h'
      · have houter : calc_sleep_time
            { s with last_retry := some now, retry_count := s.retry_count + 1 }
            (s.retry_count + 1 - 1) =
            ((s.retry_coeff * (Nat.factorial (s.retry_count + 1 - 1) : ℚ)),
              { s with last_retry := some now, retry_count := s.retry_count + 1 }) :=
          calc_none_nolatch (by simpa using hmri)
            (by show ¬ s.max_retry_time ≤
                  s.retry_coeff * (Nat.factorial (s.retry_count + 1 - 1) : ℚ)
                rw [hmax, hcoeff]
                simpa [hcount, latchAt, not_le] using hlk)
        rw [hget, houter]
        constructor
        · show s.retry_coeff * (Nat.factorial (s.retry_count + 1 - 1) : ℚ) =
            freshVal b mx k
          rw [freshVal, if_neg hlk, hcoeff]
          simp [hcount]
        · refine ⟨hcoeff, htol, hmax, by simp [hcount], ?_, ?_⟩
          · intro m' h'
            rw [show ({ s with last_retry := some now, retry_count := s.retry_count + 1 } :
                FactorialRetryCalculator).max_retry_index = s.max_retry_index
                from rfl, hmri] at h'
            cases h'
          · intro _ j hj
            rcases Nat.lt_succ_iff_lt_or_eq.mp hj with hj' | rfl
            · exact hf j hj'
            · exact hlk
  · -- a latch is already recorded and lies at or below the count
    obtain ⟨hlm, hmk⟩ := hlatch m hmri
    have hinner : calc_sleep_time s (s.retry_count - 1) =
        (s.max_retry_time, s) :=
      calc_latched _ hmri (hcount ▸ hmk)
    have hclear : clear_retry_state s now = s := by
      rw [clear_of_no_effective_reset hns, hinner]
    have hget : get_sleep_time s now =
        calc_sleep_time
          { s with last_retry := some now, retry_count := s.retry_count + 1 }
          (s.retry_count + 1 - 1) := by
      simp only [get_sleep_time]
      rw [hclear]
    have houter : calc_sleep_time
        { s with last_retry := some now, retry_count := s.retry_count + 1 }
        (s.retry_count + 1 - 1) =
        (s.max_retry_time,
          { s with last_retry := some now, retry_count := s.retry_count + 1 }) :=
      calc_latched _ (by simpa using hmri)
        (by show m ≤ s.retry_count + 1; rw [hcount]; exact hmk.trans k.le_succ)
    rw [hget, houter]
    have hlk : latchAt b mx k := latchAt_mono hb.le (by omega : m - 1 ≤ k) hlm
    constructor
    · show s.max_retry_time = freshVal b mx k
      rw [hmax, freshVal, if_pos hlk]
    · refine ⟨hcoeff, htol, hmax, by simp [hcount], ?_, ?_⟩
      · intro m' h'
        rw [show ({ s with last_retry := some now, retry_count := s.retry_count + 1 } :
            FactorialRetryCalculator).max_retry_index = s.max_retry_index
            from rfl, hmri] at h'
        obtain rfl : m = m' := by injection h'
        exact ⟨hlm, hmk.trans k.le_succ⟩
      · intro h'
        rw [show ({ s with last_retry := some now, retry_count := s.retry_count + 1 } :
            FactorialRetryCalculator).max_retry_index = s.max_retry_index
            from rfl, hmri] at h'
        cases h'

lemma init_inv (b tol mx : ℚ) : EpisodeInv b tol mx 0 (init b tol mx) :=
  ⟨rfl, rfl, rfl, rfl, fun _ h => Option.noConfusion h,
    fun _ j hj => absurd hj (by omega)⟩

lemma fresh_run {b tol mx : ℚ} (hb : 0 < b) (ts : List ℚ)
    (s : FactorialRetryCalculator) (k : ℕ) (hinv : EpisodeInv b tol mx k s)
    (hrun : no_stale_run s ts = true) :
    ∀ i, i < ts.length →
      (episodeRun s ts).1.get? i = some (freshVal b mx (k + i)) := by
  induction ts generalizing s k with
  | nil => intro i hi; simp at hi
  | cons t ts ih =>
    intro i hi
    simp only [no_stale_run, Bool.and_eq_true] at hrun
    obtain ⟨hval, hinv'⟩ := fresh_step hb hinv hrun.1
    match i with
    | 0 => simp [episodeRun, hval]
    | Nat.succ i =>
      have hrec := ih _ _ hinv' hrun.2 i (by simpa using hi)
      simp only [episodeRun]
      simpa [Nat.succ_eq_add_one, Nat.add_assoc, Nat.add_comm 1 i] using hrec

lemma calc_keeps_latch {s : FactorialRetryCalculator} {i : ℕ}
    (h : s.max_retry_index.isSome = true) :
    (calc_sleep_time s i).2.max_retry_index.isSome = true := by
  obtain ⟨b, tc, mt, mri, lr, rc⟩ := s
  cases mri with
  | none => simp at h
  | some m =>
    simp only [calc_sleep_time, calc_sleep_time_compute]
    split
    · exact h
    · split <;> simp

lemma clear_keeps_latch {s : FactorialRetryCalculator} {now : ℚ}
    (h : s.max_retry_index.isSome = true) :
    (clear_retry_state s now).max_retry_index.isSome = true := by
  have h2 := calc_keeps_latch (i := s.retry_count - 1) h
  simp only [clear_retry_state]
  rcases hl : (calc_sleep_time s (s.retry_count - 1)).2.last_retry with _ | t
  · simpa [reset_retry_counter] using h2
  · by_cases hc : (calc_sleep_time s (s.retry_count - 1)).1 * s.tolerance_coeff
        < now - t <;>
      simpa [hc, reset_retry_counter] using h2

lemma get_keeps_latch {s : FactorialRetryCalculator} {now : ℚ}
    (h : s.max_retry_index.isSome = true) :
    (get_sleep_time s now).2.max_retry_index.isSome = true := by
  have h1 := @clear_keeps_latch s now h
  simp only [get_sleep_time]
  exact calc_keeps_latch h1

lemma clear_of_reset_triggered {s : FactorialRetryCalculator} {now : ℚ}
    (h : reset_triggered s now = true) :
    clear_retry_state s now =
      reset_retry_counter (calc_sleep_time s (s.retry_count - 1)).2 := by
  simp only [reset_triggered] at h
  simp only [clear_retry_state]
  rcases hl : (calc_sleep_time s (s.retry_count - 1)).2.last_retry with _ | t
  · rfl
  · rw [hl] at h
    exact if_pos (of_decide_eq_true h)

lemma clear_frame (s : FactorialRetryCalculator) (now : ℚ) :
    (clear_retry_state s now).retry_coeff = s.retry_coeff ∧
    (clear_retry_state s now).tolerance_coeff = s.tolerance_coeff ∧
    (clear_retry_state s now).max_retry_time = s.max_retry_time ∧
    (clear_retry_state s now).max_retry_index =
      (calc_sleep_time s (s.retry_count - 1)).2.max_retry_index := by
  have hfr := calc_frame s (s.retry_count - 1)
  simp only [clear_retry_state]
  rcases hl : (calc_sleep_time s (s.retry_count - 1)).2.last_retry with _ | t
  · simp [reset_retry_counter, hfr.1, hfr.2.1, hfr.2.2.1]
  · by_cases hc : (calc_sleep_time s (s.retry_count - 1)).1 * s.tolerance_coeff
        < now - t <;>
      simp [hc, reset_retry_counter, hfr.1, hfr.2.1, hfr.2.2.1]

end FactorialRetryCalculator

lemma run_steps_ev_events_ne_nil (m : Fsm) (e : RAEvent) (rest : List RStep) :
    (run_steps m (RStep.ev e :: rest)).events ≠ [] := by
  simp only [run_steps]
  rcases h : m.step m.cur e with _ | s' <;> simp [h]

/-- C1: the claim says constructing the retry calculator with
`base_coefficient ≤ 0`, `tolerance_coefficient ≤ 1` or `max_interval ≤ 0`
raises a configuration error.  The source builds the `ValueError` objects but
never raises them, so the invalid triple `(0, 1, 0)` yields an ordinary,
usable calculator whose first `get_sleep_time` call even returns a zero
sleep time. -/
theorem C1_invalid_config_accepted :
    init 0 1 0 =
      { retry_coeff := 0, tolerance_coeff := 1, max_retry_time := 0,
        max_retry_index := none, last_retry := none, retry_count := 0 } ∧
    (get_sleep_time (init 0 1 0) 0).1 = 0 := by
  norm_num [episodeRun, get_sleep_time, clear_retry_state, calc_sleep_time,
    calc_sleep_time_compute, reset_retry_counter, reset_triggered,
    no_effective_reset, no_stale_run, init, Nat.factorial]

/-- C2, counterexample: with configuration `(1, 2, 2)` the cap latches at the
third call (`max_retry_index = some 3`, value `2 = max_interval`), yet the
fifth call — made after an elapsed-time staleness reset at `t = 1000` —
returns `1 < max_interval`, so a call after a full counter reset does not
return `max_interval`, contradicting the claim. -/
theorem C2_cap_unlatch_counterexample :
    (episodeRun (init 1 2 2) [0, 1, 2]).2.max_retry_index = some 3 ∧
    (episodeRun (init 1 2 2) [0, 1, 2, 3, 1000]).1 = [1, 1, 2, 2, 1] ∧
    (episodeRun (init 1 2 2) [0, 1, 2, 3, 1000]).1.get? 4 = some 1 ∧
    ¬ ((1 : ℚ) = 2) := by
  norm_num [episodeRun, get_sleep_time, clear_retry_state, calc_sleep_time,
    calc_sleep_time_compute, reset_retry_counter, reset_triggered,
    no_effective_reset, no_stale_run, init, Nat.factorial]

/-- C2, amended: once latched, `max_retry_index` is never cleared by a later
call; and every call made while `retry_count` is still at or above
`max_retry_index` (that is, before any staleness reset) returns exactly
`max_interval`.  After a staleness reset drops the counter the returned
values fall below the cap again until the counter regrows. -/
theorem C2_latch_amended (s : FactorialRetryCalculator) (now : ℚ) (m : ℕ) :
    (s.max_retry_index.isSome = true →
      (get_sleep_time s now).2.max_retry_index.isSome = true) ∧
    (s.max_retry_index = some m → m ≤ s.retry_count →
      reset_triggered s now = false →
      (get_sleep_time s now).1 = s.max_retry_time) := by
  refine ⟨fun h => get_keeps_latch h, fun hm hle hrt => ?_⟩
  have hns : no_effective_reset s now = true := by
    simp [no_effective_reset, hrt]
  have hinner := calc_latched (s.retry_count - 1) hm hle
  have hclear : clear_retry_state s now = s := by
    rw [clear_of_no_effective_reset hns, hinner]
  have houter := calc_latched
    (s := { s with last_retry := some now, retry_count := s.retry_count + 1 })
    (s.retry_count + 1 - 1) (by simpa using hm)
    (by show m ≤ s.retry_count + 1; omega)
  simp only [get_sleep_time]
  rw [hclear, houter]

theorem C2_latch_amended_witness :
    (get_sleep_time ⟨1, 2, 2, some 3, some 3, 3⟩ 4).2.max_retry_index.isSome
      = true ∧
    (get_sleep_time ⟨1, 2, 2, some 3, some 3, 3⟩ 4).1 = (2 : ℚ) :=
  ⟨(C2_latch_amended ⟨1, 2, 2, some 3, some 3, 3⟩ 4 3).1 (by decide),
   (C2_latch_amended ⟨1, 2, 2, some 3, some 3, 3⟩ 4 3).2 (by decide) (by decide)
     (by norm_num [reset_triggered, calc_sleep_time, calc_sleep_time_compute,
       Nat.factorial])⟩

/-- C3: on every autoreconnect attempt the handler resets the connection
position exactly once (the single `resetConnection` action, always first);
when the recorded state is STREAMING or COMMAND it issues exactly one
START_AUTOSAMPLE driver command and the next state is the driver's answer;
for every other recorded state it issues no driver command and the next
state is exactly `_state_when_lost`. -/
theorem C3_autoreconnect_handler (state_when_lost : RAState)
    (dvr_next_state : Option RAState) :
    ((state_when_lost = RAState.STREAMING ∨
        state_when_lost = RAState.COMMAND) →
      handler_lost_connection_autoreconnect state_when_lost dvr_next_state =
        ([AgentAction.resetConnection,
          AgentAction.cmdDvr DriverEvent.START_AUTOSAMPLE], dvr_next_state)) ∧
    (¬ (state_when_lost = RAState.STREAMING ∨
        state_when_lost = RAState.COMMAND) →
      handler_lost_connection_autoreconnect state_when_lost dvr_next_state =
        ([AgentAction.resetConnection], some state_when_lost)) := by
  constructor <;> intro h <;>
    simp [handler_lost_connection_autoreconnect, h]

theorem C3_autoreconnect_handler_witness :
    handler_lost_connection_autoreconnect RAState.STREAMING
        (some RAState.STREAMING) =
      ([AgentAction.resetConnection,
        AgentAction.cmdDvr DriverEvent.START_AUTOSAMPLE],
        some RAState.STREAMING) ∧
    handler_lost_connection_autoreconnect RAState.IDLE none =
      ([AgentAction.resetConnection], some RAState.IDLE) :=
  ⟨(C3_autoreconnect_handler RAState.STREAMING (some RAState.STREAMING)).1
      (Or.inl rfl),
   (C3_autoreconnect_handler RAState.IDLE none).2 (by decide)⟩

/-- C4, counterexample: with configuration `(60, 3/2, 3600)` the second
`get_sleep_time` call (index 1, `factorial 1 = 1`) returns `60`, not the
`120` asserted by the claim. -/
theorem C4_second_call_counterexample :
    (episodeRun (init 60 (3/2) 3600) [0, 60]).1 = [60, 60] ∧
    (episodeRun (init 60 (3/2) 3600) [0, 60]).1.get? 1 ≠ some 120 := by
  norm_num [episodeRun, get_sleep_time, clear_retry_state, calc_sleep_time,
    calc_sleep_time_compute, reset_retry_counter, reset_triggered,
    no_effective_reset, no_stale_run, init, Nat.factorial]

/-- C4, amended: with configuration `(60, 3/2, 3600)` and no staleness reset,
the k-th call (counting from 0) returns `min (60 * factorial k) 3600`; in
particular the first and second calls both return 60 and the third returns
120. -/
theorem C4_sequence_amended (ts : List ℚ)
    (h : no_stale_run (init 60 (3/2) 3600) ts = true)
    (k : ℕ) (hk : k < ts.length) :
    (episodeRun (init 60 (3/2) 3600) ts).1.get? k =
      some (min (60 * (Nat.factorial k : ℚ)) 3600) := by
  have hrun := fresh_run (show (0:ℚ) < 60 by norm_num)
    ts _ 0 (init_inv 60 (3/2) 3600) h k hk
  rwa [Nat.zero_add, freshVal_eq_min] at hrun

theorem C4_sequence_amended_witness :
    (episodeRun (init 60 (3/2) 3600) [0, 60]).1.get? 1 =
      some (min (60 * (Nat.factorial 1 : ℚ)) 3600) :=
  C4_sequence_amended [0, 60]
    (by norm_num [episodeRun, get_sleep_time, clear_retry_state, calc_sleep_time,
    calc_sleep_time_compute, reset_retry_counter, reset_triggered,
    no_effective_reset, no_stale_run, init, Nat.factorial])
    1 (by decide)

/-- C5, counterexample: restoring to INACTIVE while the machine is already
in INACTIVE is not a no-op: the code unconditionally fires the first climb
event, so `on_event` is invoked (and, on the nominal ladder, the restoration
even fails), contradicting the claimed idempotence. -/
theorem C5_restore_idempotent_counterexample :
    (restore_resource { cur := RAState.INACTIVE, step := nominal_step }
        (some RAState.INACTIVE) none).events ≠ [] ∧
    (restore_resource { cur := RAState.INACTIVE, step := nominal_step }
        (some RAState.INACTIVE) none).success = false := by
  decide

/-- C5, amended: restoration is a successful no-op only for the
UNINITIALIZED target when the machine is already UNINITIALIZED; for every
other target state equal to the machine's current state the replay still
invokes `on_event` (the climb starts from the bottom unconditionally). -/
theorem C5_restore_idempotent_amended :
    ((restore_resource { cur := RAState.UNINITIALIZED, step := nominal_step }
        (some RAState.UNINITIALIZED) none).events = [] ∧
      (restore_resource { cur := RAState.UNINITIALIZED, step := nominal_step }
        (some RAState.UNINITIALIZED) none).success = true) ∧
    ∀ (m : Fsm) (tgt : RAState), tgt ≠ RAState.UNINITIALIZED →
      tgt ≠ RAState.LOST_CONNECTION → m.cur = tgt →
      (restore_resource m (some tgt) none).events ≠ [] := by
  refine ⟨by decide, ?_⟩
  intro m tgt h1 h2 _
  cases tgt <;> first
    | exact absurd rfl h1
    | exact absurd rfl h2
    | exact run_steps_ev_events_ne_nil m _ _

theorem C5_restore_idempotent_amended_witness :
    (restore_resource { cur := RAState.UNINITIALIZED, step := nominal_step }
        (some RAState.UNINITIALIZED) none).events = [] ∧
    (restore_resource { cur := RAState.INACTIVE, step := nominal_step }
        (some RAState.INACTIVE) none).events ≠ [] :=
  ⟨C5_restore_idempotent_amended.1.1,
   C5_restore_idempotent_amended.2
     { cur := RAState.INACTIVE, step := nominal_step } RAState.INACTIVE
     (by decide) (by decide) rfl⟩

/-- C6, counterexample: the claim says a raised exception is caught *and
logged* inside the loop body; the body is a bare `except: pass`, so an
erroring attempt is indeed caught (the iteration completes and the loop goes
on) but emits no log record at all — the logging conjunct is false. -/
theorem C6_unlogged_counterexample :
    autoreconnect_attempt (Except.error 0) = Except.ok () ∧
    autoreconnect_attempt_logs (Except.error (0 : ℕ)) = [] ∧
    autoreconnect_loop [Except.error (0 : ℕ)] = Except.ok 1 ∧
    autoreconnect_loop_logs [Except.error (0 : ℕ)] = [] :=
  ⟨rfl, rfl, rfl, rfl⟩

/-- C6, amended: the background autoreconnect retry loop never lets an
exception of a fired event escape: every outcome is swallowed *silently* by
the bare `except` (nothing is logged), the loop runs through all its
iterations and returns normally. -/
theorem C6_loop_swallows_exceptions {ε : Type}
    (outcomes : List (Except ε Unit)) :
    autoreconnect_loop outcomes = Except.ok outcomes.length ∧
    autoreconnect_loop_logs outcomes = [] := by
  induction outcomes with
  | nil => exact ⟨rfl, rfl⟩
  | cons o rest ih =>
    cases o <;>
      simp [autoreconnect_loop, autoreconnect_attempt,
        autoreconnect_loop_logs, autoreconnect_attempt_logs, ih.1, ih.2]

/-- C7: when the staleness condition fires (no recorded retry, or elapsed
time beyond tolerance times the expected interval), `get_sleep_time` first
resets the retry counter to zero, and the returned value is the one computed
at index 0 of the restarted sequence — the base coefficient whenever no cap
is latched and the base lies below the cap. -/
theorem C7_staleness_resets (s : FactorialRetryCalculator) (now : ℚ)
    (h : reset_triggered s now = true) :
    (clear_retry_state s now).retry_count = 0 ∧
    (clear_retry_state s now).last_retry = none ∧
    (get_sleep_time s now).1 =
      (calc_sleep_time
        { clear_retry_state s now with
          last_retry := some now, retry_count := 1 } 0).1 ∧
    ((clear_retry_state s now).max_retry_index = none →
      s.retry_coeff < s.max_retry_time →
      (get_sleep_time s now).1 = s.retry_coeff) := by
  have hclear := clear_of_reset_triggered h
  have hc0 : (clear_retry_state s now).retry_count = 0 := by
    rw [hclear]; rfl
  have hl0 : (clear_retry_state s now).last_retry = none := by
    rw [hclear]; rfl
  have hfr := clear_frame s now
  have hget : get_sleep_time s now =
      calc_sleep_time
        { clear_retry_state s now with
          last_retry := some now, retry_count := 1 } 0 := by
    simp only [get_sleep_time]
    rw [hc0]
  refine ⟨hc0, hl0, by rw [hget], ?_⟩
  intro hmn hblt
  rw [hget]
  have houter := calc_none_nolatch
    (s := { clear_retry_state s now with
      last_retry := some now, retry_count := 1 })
    (i := 0) (by simpa using hmn)
    (by show ¬ (clear_retry_state s now).max_retry_time ≤
          (clear_retry_state s now).retry_coeff * (Nat.factorial 0 : ℚ)
        rw [hfr.2.2.1, hfr.1]
        simpa using not_le.mpr hblt)
  rw [houter]
  show (clear_retry_state s now).retry_coeff * (Nat.factorial 0 : ℚ) =
    s.retry_coeff
  rw [hfr.1]
  simp

theorem C7_staleness_resets_witness :
    (clear_retry_state ⟨1, 2, 2, none, some 0, 1⟩ 100).retry_count = 0 ∧
    (clear_retry_state ⟨1, 2, 2, none, some 0, 1⟩ 100).last_retry = none ∧
    (get_sleep_time ⟨1, 2, 2, none, some 0, 1⟩ 100).1 =
      (calc_sleep_time
        { clear_retry_state ⟨1, 2, 2, none, some 0, 1⟩ 100 with
          last_retry := some 100, retry_count := 1 } 0).1 ∧
    (get_sleep_time ⟨1, 2, 2, none, some 0, 1⟩ 100).1 = 1 :=
  have htrig : reset_triggered ⟨1, 2, 2, none, some 0, 1⟩ 100 = true := by
    norm_num [reset_triggered, calc_sleep_time, calc_sleep_time_compute,
      Nat.factorial]
  ⟨(C7_staleness_resets ⟨1, 2, 2, none, some 0, 1⟩ 100 htrig).1,
   (C7_staleness_resets ⟨1, 2, 2, none, some 0, 1⟩ 100 htrig).2.1,
   (C7_staleness_resets ⟨1, 2, 2, none, some 0, 1⟩ 100 htrig).2.2.1,
   (C7_staleness_resets ⟨1, 2, 2, none, some 0, 1⟩ 100 htrig).2.2.2
     (by norm_num [clear_retry_state, calc_sleep_time, calc_sleep_time_compute,
       reset_retry_counter, Nat.factorial])
     (by norm_num)⟩

/-- C8: for every valid configuration and every reset-free episode of
`get_sleep_time` calls, the returned sleep times are non-decreasing, and any
call that returns `max_interval` is followed only by calls returning
`max_interval`. -/
theorem C8_monotone_then_capped (b tol mx : ℚ) (hb : 0 < b) (htol : 1 < tol)
    (hmx : 0 < mx) (ts : List ℚ)
    (h : no_stale_run (init b tol mx) ts = true)
    (i j : ℕ) (hij : i ≤ j) (hj : j < ts.length) :
    ∃ ri rj,
      (episodeRun (init b tol mx) ts).1.get? i = some ri ∧
      (episodeRun (init b tol mx) ts).1.get? j = some rj ∧
      ri ≤ rj ∧ (ri = mx → rj = mx) := by
  have hi := fresh_run hb ts _ 0 (init_inv b tol mx) h i (lt_of_le_of_lt hij hj)
  have hjv := fresh_run hb ts _ 0 (init_inv b tol mx) h j hj
  rw [Nat.zero_add] at hi hjv
  have hfac : b * (Nat.factorial i : ℚ) ≤ b * (Nat.factorial j : ℚ) :=
    mul_le_mul_of_nonneg_left (by exact_mod_cast Nat.factorial_le hij) hb.le
  refine ⟨_, _, hi, hjv, ?_, ?_⟩
  · rw [freshVal_eq_min, freshVal_eq_min]
    exact min_le_min hfac le_rfl
  · rw [freshVal_eq_min, freshVal_eq_min]
    intro hcap
    exact min_eq_right ((min_eq_right_iff.mp hcap).trans hfac)

theorem C8_monotone_then_capped_witness :
    ∃ ri rj,
      (episodeRun (init 1 2 2) [0, 1, 2, 3]).1.get? 1 = some ri ∧
      (episodeRun (init 1 2 2) [0, 1, 2, 3]).1.get? 3 = some rj ∧
      ri ≤ rj ∧ (ri = 2 → rj = 2) :=
  C8_monotone_then_capped 1 2 2 (by norm_num) (by norm_num) (by norm_num)
    [0, 1, 2, 3]
    (by norm_num [episodeRun, get_sleep_time, clear_retry_state, calc_sleep_time,
    calc_sleep_time_compute, reset_retry_counter, reset_triggered,
    no_effective_reset, no_stale_run, init, Nat.factorial])
    1 3 (by norm_num) (by norm_num)

/-- C9: on the nominal ladder machine, restoring to STREAMING issues exactly
one START_AUTOSAMPLE resource command and ends with the machine in
STREAMING, while restoring to COMMAND issues zero resume commands and ends
in COMMAND; both replays succeed. -/
theorem C9_restore_streaming_vs_command :
    ((restore_resource nominalFsm (some RAState.STREAMING) none).events.count
        (RAEvent.EXECUTE_RESOURCE DriverEvent.START_AUTOSAMPLE) = 1 ∧
      (restore_resource nominalFsm (some RAState.STREAMING) none).final =
        RAState.STREAMING ∧
      (restore_resource nominalFsm (some RAState.STREAMING) none).success =
        true) ∧
    ((restore_resource nominalFsm (some RAState.COMMAND) none).events.count
        (RAEvent.EXECUTE_RESOURCE DriverEvent.START_AUTOSAMPLE) = 0 ∧
      (restore_resource nominalFsm (some RAState.COMMAND) none).final =
        RAState.COMMAND ∧
      (restore_resource nominalFsm (some RAState.COMMAND) none).success =
        true) := by
  decide

/-- C10: `reset_retry_counter` sets only the last-retry timestamp (to none)
and the retry count (to 0), leaving `max_retry_index` and the three
configuration coefficients untouched; and inside `_clear_retry_state` the
coefficients are likewise preserved while `max_retry_index` is exactly the
one produced by the embedded `_calc_sleep_time` probe — the reset performed
there never alters it. -/
theorem C10_reset_frame (s : FactorialRetryCalculator) (now : ℚ) :
    ((reset_retry_counter s).retry_coeff = s.retry_coeff ∧
      (reset_retry_counter s).tolerance_coeff = s.tolerance_coeff ∧
      (reset_retry_counter s).max_retry_time = s.max_retry_time ∧
      (reset_retry_counter s).max_retry_index = s.max_retry_index ∧
      (reset_retry_counter s).last_retry = none ∧
      (reset_retry_counter s).retry_count = 0) ∧
    ((clear_retry_state s now).retry_coeff = s.retry_coeff ∧
      (clear_retry_state s now).tolerance_coeff = s.tolerance_coeff ∧
      (clear_retry_state s now).max_retry_time = s.max_retry_time ∧
      (clear_retry_state s now).max_retry_index =
        (calc_sleep_time s (s.retry_count - 1)).2.max_retry_index) :=
  ⟨⟨rfl, rfl, rfl, rfl, rfl, rfl⟩, clear_frame s now⟩

end DatasetAgent
